import Mathlib

/-!
# SSO service: gRPC application lifecycle (`internal/app/grpc/app.go`, `internal/app/app.go`)

A shallow embedding of the composition root and of the gRPC application wrapper.

* Go values that the code passes around (errors, log attributes, panic values) are plain data.
* A call that may panic returns an `Outcome`; everything a call writes to the logger is returned
  as a list of `Record`s, everything `Run` and `Stop` do to the outside world as a list of
  `Event`s, in program order.
* `context.Context` arguments are dropped: no function embedded here reads them.
* `*slog.Logger` values are non-nil loggers.
-/

namespace SSO

/-! ## Go values -/

/-- The gRPC status codes (`google.golang.org/grpc/codes`) that occur here. -/
inductive Code
  | OK
  | Unknown
  | Unimplemented
  | Internal
  deriving DecidableEq, Repr

/-- The name of a status code as `codes.Code.String` prints it. -/
def Code.String : Code → String
  | .OK => "OK"
  | .Unknown => "Unknown"
  | .Unimplemented => "Unimplemented"
  | .Internal => "Internal"

/-- A Go `error` value: made by `errors.New`, by `status.Error`, or by `fmt.Errorf` with `%w`. -/
inductive GoError
  | errorString (s : String)
  | status (c : Code) (msg : String)
  | wrapError (msg : String) (err : GoError)
  deriving DecidableEq, Repr

/-- The method `Error() string` of an error. -/
def GoError.Error : GoError → String
  | .errorString s => s
  | .status c msg => "rpc error: code = " ++ c.String ++ " desc = " ++ msg
  | .wrapError msg _ => msg

/-- The function `errors.Unwrap`. -/
def GoError.Unwrap : GoError → Option GoError
  | .wrapError _ err => some err
  | _ => none

/-- The function `errors.Is err target`: `target` occurs in the chain of `err`. -/
def GoError.Is : GoError → GoError → Bool
  | .wrapError msg err, target =>
      decide (GoError.wrapError msg err = target) || GoError.Is err target
  | e, target => decide (e = target)

/-- The function `status.Error(c, msg)`. -/
def status.Error (c : Code) (msg : String) : GoError := .status c msg

/-- The call `fmt.Errorf("%s: %w", op, err)`. -/
def fmt.Errorf (op : String) (err : GoError) : GoError :=
  .wrapError (op ++ ": " ++ err.Error) err

/-- A value held by an `interface{}`: what `panic` was called with, as `recover` returns it,
or a log attribute value. There is no nil: `recover` returns a non-nil value for every panic
(`panic(nil)` arrives as a `*runtime.PanicNilError`). -/
inductive GoValue
  | str (s : String)
  | int (i : Int)
  | err (e : GoError)
  deriving DecidableEq, Repr

/-- A `time.Duration`, in nanoseconds. -/
abbrev Duration := Int

/-! ## log/slog -/

/-- A `slog.Attr`: key and value. -/
abbrev Attr := String × GoValue

/-- The constructor `slog.Int`. -/
def slog.Int (key : String) (value : Int) : Attr := (key, .int value)

/-- The constructor `slog.Any`. -/
def slog.Any (key : String) (value : GoValue) : Attr := (key, value)

/-- The constructor `slog.String`. -/
def slog.String (key value : String) : Attr := (key, .str value)

/-- The levels of `slog`. -/
inductive Level
  | Debug
  | Info
  | Warn
  | Error
  deriving DecidableEq, Repr

/-- A log record handed to the logger. -/
structure Record where
  level : Level
  msg : String
  attrs : List Attr
  deriving DecidableEq, Repr

/-- A `*slog.Logger`: the attributes attached to it with `With`. -/
structure Logger where
  attrs : List Attr
  deriving DecidableEq, Repr

/-- The method `Logger.With`. -/
def Logger.With (l : Logger) (args : List Attr) : Logger := ⟨l.attrs ++ args⟩

/-- The method `Logger.Info`: the record it emits. -/
def Logger.Info (l : Logger) (msg : String) (args : List Attr) : Record :=
  ⟨.Info, msg, l.attrs ++ args⟩

/-- The method `Logger.Error`: the record it emits. -/
def Logger.Error (l : Logger) (msg : String) (args : List Attr) : Record :=
  ⟨.Error, msg, l.attrs ++ args⟩

/-! ## Calls, handlers, interceptors -/

/-- How a Go call ends: it returns, or it panics with a value. -/
inductive Outcome (α : Type)
  | returned (a : α)
  | panicked (p : GoValue)
  deriving DecidableEq, Repr

/-- A request or response message on the wire. -/
abbrev Payload := String

/-- The pair `(resp any, err error)` a unary handler returns. -/
structure Reply where
  resp : Option Payload
  err : Option GoError
  deriving DecidableEq, Repr

/-- A `grpc.UnaryHandler`: how the call ends, and the records it logged. -/
abbrev UnaryHandler := Payload → Outcome Reply × List Record

/-- A `grpc.UnaryServerInterceptor`: it gets the request and the rest of the pipeline. -/
abbrev UnaryServerInterceptor := Payload → UnaryHandler → Outcome Reply × List Record

/-- A `recovery.RecoveryHandlerFunc`: the error it returns and the records it logged. -/
abbrev RecoveryHandlerFunc := GoValue → GoError × List Record

/-- A `recovery.Option` (named `Opt` here to keep it apart from the option type). -/
inductive recovery.Opt
  | WithRecoveryHandler (f : RecoveryHandlerFunc)

/-- Modelled from the spec: `evaluateOptions` of go-grpc-middleware `interceptors/recovery`
(a dependency, not under src/): the handler of the last `WithRecoveryHandler` option. -/
def recovery.evaluateOptions (opts : List recovery.Opt) : Option RecoveryHandlerFunc :=
  opts.foldl (fun _ o => match o with | .WithRecoveryHandler f => some f) none

/-- Modelled from the spec: `recoverFrom` of go-grpc-middleware `interceptors/recovery`
(a dependency, not under src/): the installed handler converts the fault; without one the
fault becomes an `Internal` status (whose text, a dump of the fault and the stack, is
abbreviated here). -/
def recovery.recoverFrom (p : GoValue) (r : Option RecoveryHandlerFunc) : GoError × List Record :=
  match r with
  | some f => f p
  | none => (status.Error .Internal "panic caught", [])

/-- Modelled from the spec: `recovery.UnaryServerInterceptor` of go-grpc-middleware
(a dependency, not under src/), the panic-recovery interceptor of §4.2: it "wraps the remainder
of the call-handling pipeline in a scoped fault boundary"; on a fault it captures the fault
value and converts it through the recovery handler into the error of the call. -/
def recovery.UnaryServerInterceptor (opts : List recovery.Opt) : UnaryServerInterceptor :=
  fun req handler =>
    match handler req with
    | (.returned r, logs) => (.returned r, logs)
    | (.panicked p, logs) =>
        let res := recovery.recoverFrom p (recovery.evaluateOptions opts)
        (.returned ⟨none, some res.1⟩, logs ++ res.2)

/-! ## The gRPC server (`google.golang.org/grpc`) and the listener (`net`) -/

/-- The three services registered on the server. -/
inductive Service
  | Auth
  | UserInfo
  | Follow
  deriving DecidableEq, Repr

/-- A capability implementation as the server sees it, behind its gRPC adapter: the unary
handler of each method it offers, by method name. A handler may return or panic. -/
abbrev ServiceImpl := String → Option UnaryHandler

/-- The interface `Auth` (`Login`, `SignUp`, `UpdateTokens`). -/
abbrev Auth := ServiceImpl

/-- The interface `UserInfo` (`User`, `Users`, `UsersExist`, `UsersByLogin`). -/
abbrev UserInfo := ServiceImpl

/-- The interface `FollowProvider` (`Follow`, `Unfollow`, `Followers`, `Followees`). -/
abbrev FollowProvider := ServiceImpl

/-- The lifecycle states of §4.4. -/
inductive Lifecycle
  | Constructed
  | Listening
  | Serving
  | Stopped
  deriving DecidableEq, Repr

/-- A bound `net.Listener`: the address it reports (`lis.Addr().String()`). -/
structure Listener where
  addr : String
  deriving DecidableEq, Repr

/-- A `grpc.ServerOption`. -/
inductive grpc.ServerOption
  | ChainUnaryInterceptor (interceptors : List UnaryServerInterceptor)

/-- A `*grpc.Server`: its unary interceptor chain (outermost first), the registered services
and the lifecycle state. -/
structure grpc.Server where
  chain : List UnaryServerInterceptor
  services : List (Service × ServiceImpl)
  state : Lifecycle

/-- Modelled from the spec: `grpc.NewServer` (a dependency, not under src/): a server in state
`Constructed` whose chain holds the interceptors of the `ChainUnaryInterceptor` options in the
order given, with no service registered. -/
def grpc.NewServer (opts : List grpc.ServerOption) : grpc.Server :=
  { chain := opts.foldl (fun acc o => match o with | .ChainUnaryInterceptor is => acc ++ is) []
    services := []
    state := .Constructed }

/-- Modelled from the spec: `grpc.Server.RegisterService` as the three `Register` functions
use it (§4.3 "binds each capability implementation to its corresponding RPC endpoint set on a
shared server instance"): the binding is appended, nothing else changes. -/
def grpc.Server.RegisterService (s : grpc.Server) (svc : Service) (impl : ServiceImpl) :
    grpc.Server :=
  { s with services := s.services ++ [(svc, impl)] }

/-- Modelled from the spec: `grpcauth.Register` (`internal/grpc/auth`, not under src/). -/
def grpcauth.Register (s : grpc.Server) (auth : Auth) : grpc.Server :=
  s.RegisterService .Auth auth

/-- Modelled from the spec: `grpcusrinfo.Register` (`internal/grpc/userinfo`, not under src/). -/
def grpcusrinfo.Register (s : grpc.Server) (usrInfo : UserInfo) : grpc.Server :=
  s.RegisterService .UserInfo usrInfo

/-- Modelled from the spec: `grpcfollow.Register` (`internal/grpc/follow`, not under src/). -/
def grpcfollow.Register (s : grpc.Server) (followProvider : FollowProvider) : grpc.Server :=
  s.RegisterService .Follow followProvider

/-- Modelled from the spec: the chaining of `grpc.ChainUnaryInterceptor` (a dependency, not
under src/): "within a single call, interceptor execution order is fixed", the first
interceptor is the outermost and each gets the rest of the chain as its handler. -/
def grpc.chainUnaryInterceptors : List UnaryServerInterceptor → UnaryServerInterceptor
  | [] => fun req handler => handler req
  | i :: rest => fun req handler => i req (fun r => grpc.chainUnaryInterceptors rest r handler)

/-- The handler registered for a method of a service, if any (the first binding of the
service decides). -/
def grpc.Server.lookup (s : grpc.Server) (svc : Service) (method : String) :
    Option UnaryHandler :=
  match s.services.find? (fun b => decide (b.1 = svc)) with
  | some b => b.2 method
  | none => none

/-- What becomes of one unary call sent to the server. -/
inductive CallResult
  | notServing
  | replied (r : Reply) (logs : List Record)
  | crashed (p : GoValue) (logs : List Record)
  deriving DecidableEq, Repr

/-- A call as processed: what the caller gets, and the server afterwards (`none` once a panic
has left the chain and ended the process). -/
structure Dispatch where
  result : CallResult
  srv : Option grpc.Server

/-- Modelled from the spec: the dispatch of one unary call by the server (a dependency, not
under src/), §4.4 "the server begins accepting and dispatching calls through the interceptor
chain": only a `Serving` server takes the call; an unknown method is answered `Unimplemented`
without running a handler; otherwise the chain runs around the handler, what it returns is the
one reply, and a panic that leaves the chain ends the process. -/
def grpc.Server.processUnaryRPC (s : grpc.Server) (svc : Service) (method : String)
    (req : Payload) : Dispatch :=
  match s.state with
  | .Serving =>
      match s.lookup svc method with
      | none => ⟨.replied ⟨none, some (status.Error .Unimplemented "unknown method")⟩ [], some s⟩
      | some h =>
          match grpc.chainUnaryInterceptors s.chain req h with
          | (.returned r, logs) => ⟨.replied r logs, some s⟩
          | (.panicked p, logs) => ⟨.crashed p logs, none⟩
  | _ => ⟨.notServing, some s⟩

/-- What the world does to a server while it serves: `Stop` is called from elsewhere, or the
accept loop fails with a transport error. -/
inductive ServeEnd
  | stopped
  | failed (e : GoError)
  deriving DecidableEq, Repr

/-- What `Run` and `Stop` do, in program order: a record they log, a call of `net.Listen`,
a listener it returned (state `Listening`), a call of `Serve`, the accept loop entered (state
`Serving`), a listener released, a call of `GracefulStop`. -/
inductive Event
  | log (r : Record)
  | listen (network address : String)
  | bound (lis : Listener)
  | serve (lis : Listener)
  | accepting (lis : Listener)
  | closed (lis : Listener)
  | gracefulStop
  deriving DecidableEq, Repr

/-- The result of `Serve`: the server afterwards, the error returned, and what happened. -/
structure ServeResult where
  srv : grpc.Server
  err : Option GoError
  events : List Event

/-- The error `grpc.ErrServerStopped`. -/
def grpc.ErrServerStopped : GoError := .errorString "grpc: the server has been stopped"

/-- Modelled from the spec: `grpc.Server.Serve` (a dependency, not under src/), §4.4: from
`Stopped` it does not restart but returns the explicit already-stopped error and releases the
listener it was given; otherwise it serves until `Stop` is invoked (it returns nil) or a fatal
transport error occurs (it returns that error), releases the listener and is `Stopped`. -/
def grpc.Server.Serve (s : grpc.Server) (lis : Listener) (how : ServeEnd) : ServeResult :=
  match s.state with
  | .Stopped => ⟨s, some grpc.ErrServerStopped, [.closed lis]⟩
  | _ =>
      ⟨{ s with state := .Stopped },
        (match how with
          | .stopped => none
          | .failed e => some e),
        [.accepting lis, .closed lis]⟩

/-- Modelled from the spec: `grpc.Server.GracefulStop` (a dependency, not under src/), §4.4:
the server is `Stopped`; on a server that is already stopped this changes nothing. -/
def grpc.Server.GracefulStop (s : grpc.Server) : grpc.Server :=
  { s with state := .Stopped }

/-- The records logged, in order. -/
def logsOf : List Event → List Record
  | [] => []
  | .log r :: es => r :: logsOf es
  | _ :: es => logsOf es

/-- The listeners bound and not yet released at the end of a trace. -/
def openListeners (es : List Event) : List Listener :=
  es.foldl
    (fun acc e =>
      match e with
      | .bound lis => acc ++ [lis]
      | .closed lis => acc.filter (fun l => decide (l ≠ lis))
      | _ => acc)
    []

/-- Whether `Serve` was called in a trace. -/
def calledServe (es : List Event) : Bool :=
  es.any (fun e => match e with | .serve _ => true | _ => false)

/-- Whether the state `Serving` was reached in a trace. -/
def reachedServing (es : List Event) : Bool :=
  es.any (fun e => match e with | .accepting _ => true | _ => false)

/-! ## `internal/app/grpc/app.go` -/

namespace grpcapp

/-- The struct `App`. -/
structure App where
  log : Logger
  gRPCSrv : grpc.Server
  port : Int

/-- The recovery handler that `New` installs (the closure passed to
`recovery.WithRecoveryHandler`): it logs the fault at `Error` level and returns
`status.Error(codes.Internal, "internal error")`. -/
def New.recoveryHandler (log : Logger) : RecoveryHandlerFunc :=
  fun p =>
    (status.Error .Internal "internal error",
      [log.Error "recovering from a panic" [slog.Any "panic" p]])

/-- The function `New`. The logging options are built and dropped, as in the source, and the
logging interceptor is not part of the chain. -/
def New (log : Logger) (port : Int) (timeout : Duration) (auth : Auth) (usrInfo : UserInfo)
    (followProvider : FollowProvider) : App :=
  let _ := timeout
  let recoveryOpts := [recovery.Opt.WithRecoveryHandler (New.recoveryHandler log)]
  let grpcsrv := grpc.NewServer
    [grpc.ServerOption.ChainUnaryInterceptor [recovery.UnaryServerInterceptor recoveryOpts]]
  let grpcsrv := grpcauth.Register grpcsrv auth
  let grpcsrv := grpcusrinfo.Register grpcsrv usrInfo
  let grpcsrv := grpcfollow.Register grpcsrv followProvider
  { log := log, gRPCSrv := grpcsrv, port := port }

/-- What `Run` meets outside the program: the outcome of `net.Listen` for a network and an
address, and how the serving ends once it has begun. `slErr` is the helper `sl.Err`
(`internal/lib/logger/sl`, not under src/), the log attribute made from an error. -/
structure Env where
  listen : String → String → Except GoError Listener
  serveEnd : ServeEnd
  slErr : GoError → Attr

/-- The result of `Run`: the App afterwards, the error returned, and what happened. -/
structure RunResult where
  app : App
  err : Option GoError
  events : List Event

/-- The method `Run`. `fmt.Sprintf(":%d", a.port)` is the port in decimal after a colon. -/
def App.Run (a : App) (env : Env) : RunResult :=
  let op := "grpcapp.Run"
  let log := a.log.With [slog.String "op" op]
  let started := [Event.log (log.Info "starting gRPC application" [])]
  let address := ":" ++ toString a.port
  match env.listen "tcp" address with
  | .error err =>
      { app := a
        err := some (fmt.Errorf op err)
        events := started ++
          [.listen "tcp" address,
           .log (log.Error "failed to listen addr" [env.slErr err, slog.Int "port" a.port])] }
  | .ok lis =>
      let listening := started ++
        [.listen "tcp" address, .bound lis,
         .log (log.Info "starting to serve" [slog.String "address" lis.addr])]
      let served := a.gRPCSrv.Serve lis env.serveEnd
      match served.err with
      | some err =>
          { app := { a with gRPCSrv := served.srv }
            err := some (fmt.Errorf op err)
            events := listening ++ [.serve lis] ++ served.events ++
              [.log (log.Error "failed to serve socket" [env.slErr err])] }
      | none =>
          { app := { a with gRPCSrv := served.srv }
            err := none
            events := listening ++ [.serve lis] ++ served.events }

/-- The result of `MustRun`: what `Run` did, and the value it panicked with, if it did. -/
structure MustRunResult where
  run : RunResult
  panicked : Option GoValue

/-- The method `MustRun`. -/
def App.MustRun (a : App) (env : Env) : MustRunResult :=
  let r := a.Run env
  match r.err with
  | some err => ⟨r, some (.str ("failed to run application" ++ err.Error))⟩
  | none => ⟨r, none⟩

/-- The result of `Stop`: the App afterwards and what happened. -/
structure StopResult where
  app : App
  events : List Event

/-- The method `Stop`. -/
def App.Stop (a : App) : StopResult :=
  let op := "grpcapp.Stop"
  { app := { a with gRPCSrv := a.gRPCSrv.GracefulStop }
    events := [.log (a.log.Info "stopping application" [slog.String "op" op]), .gracefulStop] }

end grpcapp

/-! ## `internal/app/app.go` -/

namespace app

/-- The struct `App`. -/
structure App where
  GRPCApp : grpcapp.App

/-- The constructors `New` calls that are not under src/: `sqlite.New`, `auth.New`,
`userinfo.New` and `follow.New`. -/
structure Constructors (Storage : Type) where
  sqliteNew : String → Storage
  authNew : Logger → Storage → Storage → Storage → String → Duration → Duration → Auth
  userinfoNew : Logger → Storage → UserInfo
  followNew : Logger → Storage → Storage → Storage → FollowProvider

/-- The function `New`. -/
def New {Storage : Type} (c : Constructors Storage) (log : Logger) (storagePath : String)
    (secret : String) (tokenTTL : Duration) (refreshTTL : Duration) (port : Int)
    (timeout : Duration) : App :=
  let st := c.sqliteNew storagePath
  let authsrvc := c.authNew log st st st secret tokenTTL refreshTTL
  let usrInfo := c.userinfoNew log st
  let fllw := c.followNew log st st st
  let gRPCApp := grpcapp.New log port timeout authsrvc usrInfo fllw
  { GRPCApp := gRPCApp }

end app

/-! ## Sample inputs -/

namespace grpcapp

/-- A logger with no attribute attached. -/
def sampleLog : Logger := ⟨[]⟩

/-- An authentication service whose `Login` answers with a token pair. -/
def sampleAuth : Auth := fun method =>
  if method = "Login" then some (fun req => (.returned ⟨some ("tokens for " ++ req), none⟩, []))
  else none

/-- A user directory whose `User` answers with the user. -/
def sampleUserInfo : UserInfo := fun method =>
  if method = "User" then some (fun req => (.returned ⟨some ("user " ++ req), none⟩, []))
  else none

/-- A follow graph whose `Follow` panics. -/
def sampleFollow : FollowProvider := fun method =>
  if method = "Follow" then
    some (fun _ => (.panicked (.str "assignment to entry in nil map"), []))
  else none

/-- The App built from the samples for port 50051. -/
def sampleApp : App := New sampleLog 50051 5000000000 sampleAuth sampleUserInfo sampleFollow

/-- The server of `sampleApp` while it serves. -/
def sampleServing : grpc.Server := { sampleApp.gRPCSrv with state := .Serving }

/-- The error of a bind on a port that is in use. -/
def addrInUse : GoError := .errorString "listen tcp :50051: bind: address already in use"

/-- A fatal transport error of the accept loop: `Accept` fails with EINVAL, an error that is
not temporary, so the loop does not retry and `Serve` returns it. -/
def acceptFailed : GoError := .errorString "accept tcp [::]:50051: accept4: invalid argument"

/-- The attribute `sl.Err` makes in the samples. -/
def sampleSlErr (err : GoError) : Attr := ("error", .str err.Error)

/-- A world in which every bind fails with `addrInUse`. -/
def busyEnv : Env :=
  { listen := fun _ _ => .error addrInUse, serveEnd := .stopped, slErr := sampleSlErr }

/-- A world in which the bind succeeds and the serving ends as given. -/
def freeEnv (how : ServeEnd) : Env :=
  { listen := fun _ _ => .ok ⟨"[::]:50051"⟩, serveEnd := how, slErr := sampleSlErr }

end grpcapp

/-- The constructors used in the samples: the storage is its path. -/
def app.sampleConstructors : app.Constructors String :=
  { sqliteNew := fun path => path
    authNew := fun _ _ _ _ _ _ _ => grpcapp.sampleAuth
    userinfoNew := fun _ _ => grpcapp.sampleUserInfo
    followNew := fun _ _ _ _ => grpcapp.sampleFollow }

/-! ## General facts -/

theorem GoError.Is_self (e : GoError) : e.Is e = true := by
  cases e <;> simp [GoError.Is]

theorem fmt.Errorf_Is (op : String) (e : GoError) : (fmt.Errorf op e).Is e = true := by
  simp [fmt.Errorf, GoError.Is, GoError.Is_self]

namespace grpcapp

theorem New_chain (log : Logger) (port : Int) (timeout : Duration) (auth : Auth)
    (usrInfo : UserInfo) (followProvider : FollowProvider) :
    (New log port timeout auth usrInfo followProvider).gRPCSrv.chain =
      [recovery.UnaryServerInterceptor [.WithRecoveryHandler (New.recoveryHandler log)]] := by
  rfl

theorem New_services (log : Logger) (port : Int) (timeout : Duration) (auth : Auth)
    (usrInfo : UserInfo) (followProvider : FollowProvider) :
    (New log port timeout auth usrInfo followProvider).gRPCSrv.services =
      [(.Auth, auth), (.UserInfo, usrInfo), (.Follow, followProvider)] := by
  rfl

theorem Serve_keeps_chain (s : grpc.Server) (lis : Listener) (how : ServeEnd) :
    (s.Serve lis how).srv.chain = s.chain ∧ (s.Serve lis how).srv.services = s.services := by
  unfold grpc.Server.Serve
  split <;> exact ⟨rfl, rfl⟩

theorem Run_keeps_chain (a : App) (env : Env) :
    (a.Run env).app.gRPCSrv.chain = a.gRPCSrv.chain ∧
    (a.Run env).app.gRPCSrv.services = a.gRPCSrv.services := by
  unfold App.Run
  simp only
  split
  · exact ⟨rfl, rfl⟩
  · split <;> exact Serve_keeps_chain _ _ _

theorem Run_of_bind_error (a : App) (env : Env) (e : GoError)
    (h : env.listen "tcp" (":" ++ toString a.port) = .error e) :
    a.Run env =
      { app := a
        err := some (fmt.Errorf "grpcapp.Run" e)
        events := [Event.log ((a.log.With [slog.String "op" "grpcapp.Run"]).Info
            "starting gRPC application" [])] ++
          [.listen "tcp" (":" ++ toString a.port),
           .log ((a.log.With [slog.String "op" "grpcapp.Run"]).Error "failed to listen addr"
             [env.slErr e, slog.Int "port" a.port])] } := by
  simp only [App.Run, h]

theorem recovery_returns (f : RecoveryHandlerFunc) (req : Payload) (h : UnaryHandler) :
    ∃ r logs,
      recovery.UnaryServerInterceptor [.WithRecoveryHandler f] req h = (.returned r, logs) := by
  unfold recovery.UnaryServerInterceptor
  rcases hh : h req with ⟨o, l⟩
  cases o with
  | returned r => exact ⟨r, l, rfl⟩
  | panicked p => exact ⟨_, _, rfl⟩

/-! ## The lifecycle: `Run`, `MustRun`, `Stop` -/

/-- C1: when binding the listener on ":<port>" fails, `Run` returns a non-nil error (the bind
error wrapped under "grpcapp.Run"), never calls `Serve`, never reaches `Serving`, leaves the App
and its server unchanged (a `Constructed` server stays `Constructed`) and no listener bound. -/
theorem Run_bind_failure (a : App) (env : Env) (e : GoError)
    (h : env.listen "tcp" (":" ++ toString a.port) = .error e) :
    (a.Run env).err ≠ none ∧
    (a.Run env).err = some (fmt.Errorf "grpcapp.Run" e) ∧
    calledServe (a.Run env).events = false ∧
    reachedServing (a.Run env).events = false ∧
    (a.Run env).app = a ∧
    (a.gRPCSrv.state = .Constructed → (a.Run env).app.gRPCSrv.state = .Constructed) ∧
    openListeners (a.Run env).events = [] := by
  rw [Run_of_bind_error a env e h]
  refine ⟨by simp, rfl, rfl, rfl, rfl, fun hc => hc, rfl⟩

/-- C1 at the sample App on a busy port. -/
theorem Run_bind_failure_witness :
    (sampleApp.Run busyEnv).err ≠ none ∧
    (sampleApp.Run busyEnv).err = some (fmt.Errorf "grpcapp.Run" addrInUse) ∧
    calledServe (sampleApp.Run busyEnv).events = false ∧
    reachedServing (sampleApp.Run busyEnv).events = false ∧
    (sampleApp.Run busyEnv).app = sampleApp ∧
    (sampleApp.gRPCSrv.state = .Constructed →
      (sampleApp.Run busyEnv).app.gRPCSrv.state = .Constructed) ∧
    openListeners (sampleApp.Run busyEnv).events = [] :=
  Run_bind_failure sampleApp busyEnv addrInUse rfl

/-- C2 as stated fails: the bind succeeds, `Serve` ends with the fatal transport error
`acceptFailed` (EINVAL from `Accept`), and what `Run` returns is not that error but a new one
wrapping it. -/
theorem Run_serve_error_not_returned_as_is :
    (freeEnv (.failed acceptFailed)).listen "tcp" (":" ++ toString sampleApp.port) =
        .ok ⟨"[::]:50051"⟩ ∧
    (sampleApp.gRPCSrv.Serve ⟨"[::]:50051"⟩ (freeEnv (.failed acceptFailed)).serveEnd).err =
        some acceptFailed ∧
    (sampleApp.Run (freeEnv (.failed acceptFailed))).err ≠ some acceptFailed ∧
    (sampleApp.Run (freeEnv (.failed acceptFailed))).err =
        some (.wrapError "grpcapp.Run: accept tcp [::]:50051: accept4: invalid argument"
          acceptFailed) := by
  refine ⟨rfl, rfl, ?_, ?_⟩
  · simp [App.Run, freeEnv, sampleApp, New, grpc.Server.Serve, grpcauth.Register,
      grpcusrinfo.Register, grpcfollow.Register, grpc.Server.RegisterService, grpc.NewServer,
      fmt.Errorf, acceptFailed]
  · simp [App.Run, freeEnv, sampleApp, New, grpc.Server.Serve, grpcauth.Register,
      grpcusrinfo.Register, grpcfollow.Register, grpc.Server.RegisterService, grpc.NewServer,
      fmt.Errorf, acceptFailed, GoError.Error]

/-- C2, amended: when the listener binds, `Run` returns nil exactly when `Serve` ends without
error, and when `Serve` ends with an error `e`, `Run` returns a new error that wraps `e`: its
message is "grpcapp.Run: " followed by the message of `e`, and it unwraps to `e`. `Run` returns
only after `Serve` has: its trace is what precedes the call of `Serve` (no call of `Serve` in
it), the call, all of what `Serve` did, and at most the record of the error. -/
theorem Run_returns_what_Serve_ends_with (a : App) (env : Env) (lis : Listener)
    (h : env.listen "tcp" (":" ++ toString a.port) = .ok lis) :
    ((a.Run env).err = none ↔ (a.gRPCSrv.Serve lis env.serveEnd).err = none) ∧
    (∀ e, (a.gRPCSrv.Serve lis env.serveEnd).err = some e →
      (a.Run env).err = some (fmt.Errorf "grpcapp.Run" e) ∧
      (fmt.Errorf "grpcapp.Run" e).Error = "grpcapp.Run: " ++ e.Error ∧
      (fmt.Errorf "grpcapp.Run" e).Unwrap = some e ∧
      (fmt.Errorf "grpcapp.Run" e).Is e = true) ∧
    (∃ before after,
      (a.Run env).events =
        before ++ [.serve lis] ++ (a.gRPCSrv.Serve lis env.serveEnd).events ++ after ∧
      calledServe before = false ∧ after.length ≤ 1) ∧
    (a.Run env).app.gRPCSrv = (a.gRPCSrv.Serve lis env.serveEnd).srv := by
  cases hs : (a.gRPCSrv.Serve lis env.serveEnd).err with
  | none =>
      have hr : a.Run env =
          { app := { a with gRPCSrv := (a.gRPCSrv.Serve lis env.serveEnd).srv }
            err := none
            events := [Event.log ((a.log.With [slog.String "op" "grpcapp.Run"]).Info
                "starting gRPC application" [])] ++
              [.listen "tcp" (":" ++ toString a.port), .bound lis,
               .log ((a.log.With [slog.String "op" "grpcapp.Run"]).Info "starting to serve"
                 [slog.String "address" lis.addr])] ++ [.serve lis] ++
              (a.gRPCSrv.Serve lis env.serveEnd).events } := by
        simp only [App.Run, h, hs]
      rw [hr]
      refine ⟨by simp, by simp, ⟨[Event.log ((a.log.With [slog.String "op" "grpcapp.Run"]).Info
                "starting gRPC application" []), .listen "tcp" (":" ++ toString a.port),
               .bound lis,
               .log ((a.log.With [slog.String "op" "grpcapp.Run"]).Info "starting to serve"
                 [slog.String "address" lis.addr])], [], by simp, rfl, by simp⟩, rfl⟩
  | some e =>
      have hr : a.Run env =
          { app := { a with gRPCSrv := (a.gRPCSrv.Serve lis env.serveEnd).srv }
            err := some (fmt.Errorf "grpcapp.Run" e)
            events := [Event.log ((a.log.With [slog.String "op" "grpcapp.Run"]).Info
                "starting gRPC application" [])] ++
              [.listen "tcp" (":" ++ toString a.port), .bound lis,
               .log ((a.log.With [slog.String "op" "grpcapp.Run"]).Info "starting to serve"
                 [slog.String "address" lis.addr])] ++ [.serve lis] ++
              (a.gRPCSrv.Serve lis env.serveEnd).events ++
              [.log ((a.log.With [slog.String "op" "grpcapp.Run"]).Error
                "failed to serve socket" [env.slErr e])] } := by
        simp only [App.Run, h, hs]
      rw [hr]
      refine ⟨by simp, ?_, ⟨_, _, rfl, rfl, by simp⟩, rfl⟩
      intro e2 he
      cases he
      exact ⟨rfl, rfl, rfl, fmt.Errorf_Is _ _⟩

/-- C2, amended, at the sample App on a free port whose accept loop fails with the fatal
error `acceptFailed`. -/
theorem Run_returns_what_Serve_ends_with_witness :
    ((sampleApp.Run (freeEnv (.failed acceptFailed))).err = none ↔
      (sampleApp.gRPCSrv.Serve ⟨"[::]:50051"⟩
        (freeEnv (.failed acceptFailed)).serveEnd).err = none) ∧
    (∀ e, (sampleApp.gRPCSrv.Serve ⟨"[::]:50051"⟩
        (freeEnv (.failed acceptFailed)).serveEnd).err = some e →
      (sampleApp.Run (freeEnv (.failed acceptFailed))).err =
        some (fmt.Errorf "grpcapp.Run" e) ∧
      (fmt.Errorf "grpcapp.Run" e).Error = "grpcapp.Run: " ++ e.Error ∧
      (fmt.Errorf "grpcapp.Run" e).Unwrap = some e ∧
      (fmt.Errorf "grpcapp.Run" e).Is e = true) ∧
    (∃ before after,
      (sampleApp.Run (freeEnv (.failed acceptFailed))).events =
        before ++ [.serve ⟨"[::]:50051"⟩] ++
          (sampleApp.gRPCSrv.Serve ⟨"[::]:50051"⟩
            (freeEnv (.failed acceptFailed)).serveEnd).events ++ after ∧
      calledServe before = false ∧ after.length ≤ 1) ∧
    (sampleApp.Run (freeEnv (.failed acceptFailed))).app.gRPCSrv =
      (sampleApp.gRPCSrv.Serve ⟨"[::]:50051"⟩ (freeEnv (.failed acceptFailed)).serveEnd).srv :=
  Run_returns_what_Serve_ends_with sampleApp (freeEnv (.failed acceptFailed)) ⟨"[::]:50051"⟩ rfl

/-- C9: `MustRun` panics if and only if `Run` returns a non-nil error: when `Run` returns nil
it returns normally, and when `Run` returns `e` it panics with the string
"failed to run application" followed by the message of `e`. It does what `Run` does. -/
theorem MustRun_panics_iff_Run_fails (a : App) (env : Env) :
    ((a.MustRun env).panicked ≠ none ↔ (a.Run env).err ≠ none) ∧
    ((a.Run env).err = none → (a.MustRun env).panicked = none) ∧
    (∀ e, (a.Run env).err = some e →
      (a.MustRun env).panicked = some (.str ("failed to run application" ++ e.Error))) ∧
    (a.MustRun env).run = a.Run env := by
  unfold App.MustRun
  cases hr : (a.Run env).err with
  | none => simp [hr]
  | some e => simp [hr]

/-- C9 at the sample App: on a busy port `MustRun` panics with the text built from the error of
`Run`, and after a graceful stop it returns normally. -/
theorem MustRun_panics_iff_Run_fails_witness :
    (sampleApp.MustRun busyEnv).panicked =
      some (.str ("failed to run application" ++
        "grpcapp.Run: listen tcp :50051: bind: address already in use")) ∧
    (sampleApp.MustRun (freeEnv .stopped)).panicked = none :=
  ⟨(MustRun_panics_iff_Run_fails sampleApp busyEnv).2.2.1 _ rfl,
   (MustRun_panics_iff_Run_fails sampleApp (freeEnv .stopped)).2.1 rfl⟩

/-- C5 as stated fails: the second of two calls of `Stop` is observable, it logs a record. -/
theorem Stop_second_call_logs :
    ¬ ((sampleApp.Stop).app.Stop.app = (sampleApp.Stop).app ∧
       logsOf (sampleApp.Stop).app.Stop.events = []) := by
  intro h
  have h2 := h.2
  simp [App.Stop, logsOf] at h2

/-- C5, amended: calling `Stop` twice in sequence leaves the App (logger, server, port) in the
same state as calling it once, with the server `Stopped`; on an App whose server is already
stopped `Stop` changes nothing in the App; it returns no error. What the second call does
that can be observed is one more `Info` record "stopping application" with op "grpcapp.Stop". -/
theorem Stop_idempotent_on_state (a : App) :
    (a.Stop).app.Stop.app = (a.Stop).app ∧
    (a.Stop).app.gRPCSrv.state = .Stopped ∧
    (a.Stop).app.Stop.app.gRPCSrv.state = .Stopped ∧
    (∀ b : App, b.gRPCSrv.state = .Stopped → (b.Stop).app = b) ∧
    logsOf (a.Stop).app.Stop.events =
      [⟨.Info, "stopping application", a.log.attrs ++ [("op", .str "grpcapp.Stop")]⟩] ∧
    (a.Stop).app.Stop.events = (a.Stop).events := by
  refine ⟨rfl, rfl, rfl, ?_, rfl, rfl⟩
  intro b hb
  rcases b with ⟨l, ⟨c, sv, st⟩, p⟩
  simp only at hb
  subst hb
  rfl

/-- C5, amended, at the sample App. -/
theorem Stop_idempotent_on_state_witness :
    (sampleApp.Stop).app.Stop.app = (sampleApp.Stop).app ∧
    ((sampleApp.Stop).app.Stop).app = (sampleApp.Stop).app :=
  ⟨(Stop_idempotent_on_state sampleApp).1,
   (Stop_idempotent_on_state sampleApp).2.2.2.1 (sampleApp.Stop).app rfl⟩

/-- C6 as stated fails: on a stopped App whose port cannot be bound, `Run` returns the bind
error, and the already-stopped error is nowhere in its chain. -/
theorem Run_after_Stop_may_return_bind_error :
    (sampleApp.Stop).app.gRPCSrv.state = .Stopped ∧
    ((sampleApp.Stop).app.Run busyEnv).err = some (fmt.Errorf "grpcapp.Run" addrInUse) ∧
    (fmt.Errorf "grpcapp.Run" addrInUse).Is grpc.ErrServerStopped = false := by
  refine ⟨rfl, rfl, ?_⟩
  simp [fmt.Errorf, GoError.Is, addrInUse, grpc.ErrServerStopped]

/-- C6, amended: `Stop` leaves the server `Stopped`, and on every App whose server is `Stopped`
a later `Run` returns a non-nil error and does not restart: when the port binds, the error is
the already-stopped error of the server wrapped under "grpcapp.Run"; when the bind fails, it is
the bind error wrapped the same way. In both cases `Serving` is not reached, the server stays
`Stopped` and no listener is left bound. -/
theorem Run_after_Stop (a : App) (b : App) (env : Env) (hb : b.gRPCSrv.state = .Stopped) :
    (a.Stop).app.gRPCSrv.state = .Stopped ∧
    (b.Run env).err ≠ none ∧
    (∀ lis, env.listen "tcp" (":" ++ toString b.port) = .ok lis →
      (b.Run env).err = some (fmt.Errorf "grpcapp.Run" grpc.ErrServerStopped) ∧
      (fmt.Errorf "grpcapp.Run" grpc.ErrServerStopped).Is grpc.ErrServerStopped = true) ∧
    (∀ e, env.listen "tcp" (":" ++ toString b.port) = .error e →
      (b.Run env).err = some (fmt.Errorf "grpcapp.Run" e)) ∧
    reachedServing (b.Run env).events = false ∧
    (b.Run env).app.gRPCSrv.state = .Stopped ∧
    (b.Run env).app = b ∧
    openListeners (b.Run env).events = [] := by
  have hserve : ∀ lis, b.gRPCSrv.Serve lis env.serveEnd =
      ⟨b.gRPCSrv, some grpc.ErrServerStopped, [.closed lis]⟩ := by
    intro lis
    simp only [grpc.Server.Serve, hb]
  cases hl : env.listen "tcp" (":" ++ toString b.port) with
  | error e =>
      rw [Run_of_bind_error b env e hl]
      refine ⟨rfl, by simp, ?_, ?_, rfl, hb, rfl, rfl⟩
      · intro lis h2
        cases h2
      · intro e2 h2
        cases h2
        rfl
  | ok lis =>
      have hr : b.Run env =
          { app := { b with gRPCSrv := b.gRPCSrv }
            err := some (fmt.Errorf "grpcapp.Run" grpc.ErrServerStopped)
            events := [Event.log ((b.log.With [slog.String "op" "grpcapp.Run"]).Info
                "starting gRPC application" [])] ++
              [.listen "tcp" (":" ++ toString b.port), .bound lis,
               .log ((b.log.With [slog.String "op" "grpcapp.Run"]).Info "starting to serve"
                 [slog.String "address" lis.addr])] ++ [.serve lis] ++ [.closed lis] ++
              [.log ((b.log.With [slog.String "op" "grpcapp.Run"]).Error
                "failed to serve socket" [env.slErr grpc.ErrServerStopped])] } := by
        simp only [App.Run, hl, hserve]
      rw [hr]
      refine ⟨rfl, by simp, ?_, ?_, rfl, hb, rfl, ?_⟩
      · intro lis2 h2
        exact ⟨rfl, fmt.Errorf_Is _ _⟩
      · intro e2 h2
        cases h2
      · simp [openListeners]

/-- C6, amended, at the sample App after `Stop`, on a free port. -/
theorem Run_after_Stop_witness :
    ((sampleApp.Stop).app.Run (freeEnv .stopped)).err =
      some (fmt.Errorf "grpcapp.Run" grpc.ErrServerStopped) ∧
    reachedServing ((sampleApp.Stop).app.Run (freeEnv .stopped)).events = false ∧
    openListeners ((sampleApp.Stop).app.Run (freeEnv .stopped)).events = [] :=
  ⟨((Run_after_Stop sampleApp (sampleApp.Stop).app (freeEnv .stopped) rfl).2.2.1
      ⟨"[::]:50051"⟩ rfl).1,
   (Run_after_Stop sampleApp (sampleApp.Stop).app (freeEnv .stopped) rfl).2.2.2.2.1,
   (Run_after_Stop sampleApp (sampleApp.Stop).app (freeEnv .stopped) rfl).2.2.2.2.2.2.2⟩

/-! ## The interceptor chain built by `New` -/

/-- C4: the recovery handler installed by `New` does not expose the fault: for any two fault
values `p` and `q` the status it returns is the same, `Internal` with message "internal error",
while the one record it logs, at `Error` level, carries `p` itself under the key "panic". It is
the handler of the only interceptor of the chain, so the reply to the caller of a handler that
panics with `p` is the same status as for one that panics with `q`. -/
theorem recoveryHandler_status_independent_of_fault (log : Logger) (port : Int)
    (timeout : Duration) (auth : Auth) (usrInfo : UserInfo) (followProvider : FollowProvider)
    (p q : GoValue) :
    (New.recoveryHandler log p).1 = (New.recoveryHandler log q).1 ∧
    (New.recoveryHandler log p).1 = status.Error .Internal "internal error" ∧
    (New.recoveryHandler log p).2 =
      [⟨.Error, "recovering from a panic", log.attrs ++ [("panic", p)]⟩] ∧
    (New log port timeout auth usrInfo followProvider).gRPCSrv.chain =
      [recovery.UnaryServerInterceptor [.WithRecoveryHandler (New.recoveryHandler log)]] ∧
    (∀ (req req2 : Payload) (logs logs2 : List Record),
      (grpc.chainUnaryInterceptors
        (New log port timeout auth usrInfo followProvider).gRPCSrv.chain req
        (fun _ => (.panicked p, logs))).1 =
      (grpc.chainUnaryInterceptors
        (New log port timeout auth usrInfo followProvider).gRPCSrv.chain req2
        (fun _ => (.panicked q, logs2))).1) := by
  refine ⟨rfl, rfl, rfl, rfl, ?_⟩
  intro req req2 logs logs2
  rfl

/-- C3: on the server built by `New`, while it serves, a call whose handler panics with any
value `p` gets exactly one reply, the status `Internal` with message "internal error" and no
response; the panic does not leave the chain (the process goes on, the fault is logged once),
the server is the same `Serving` server afterwards, and every later call is still dispatched:
it is answered with what the chain around its handler returns, never refused and never a
crash, and a handler that returns has its own reply delivered. -/
theorem panic_contained_and_server_keeps_serving (log : Logger) (port : Int)
    (timeout : Duration) (auth : Auth) (usrInfo : UserInfo) (followProvider : FollowProvider)
    (s : grpc.Server) (svc : Service) (method : String) (req : Payload) (h : UnaryHandler)
    (p : GoValue) (logs : List Record)
    (hs : s = { (New log port timeout auth usrInfo followProvider).gRPCSrv with
                  state := .Serving })
    (hh : s.lookup svc method = some h) (hp : h req = (.panicked p, logs)) :
    (s.processUnaryRPC svc method req).result =
      .replied ⟨none, some (status.Error .Internal "internal error")⟩
        (logs ++ [log.Error "recovering from a panic" [slog.Any "panic" p]]) ∧
    (s.processUnaryRPC svc method req).srv = some s ∧
    s.state = .Serving ∧
    (∀ (svc2 : Service) (method2 : String) (req2 : Payload),
      (s.processUnaryRPC svc2 method2 req2).srv = some s ∧
      ∃ r l, (s.processUnaryRPC svc2 method2 req2).result = .replied r l) ∧
    (∀ (svc2 : Service) (method2 : String) (req2 : Payload) (h2 : UnaryHandler) (r : Reply)
      (l : List Record), s.lookup svc2 method2 = some h2 → h2 req2 = (.returned r, l) →
      (s.processUnaryRPC svc2 method2 req2).result = .replied r l) := by
  have hstate : s.state = .Serving := by rw [hs]
  have hchain : s.chain =
      [recovery.UnaryServerInterceptor [.WithRecoveryHandler (New.recoveryHandler log)]] := by
    rw [hs]
    rfl
  have hrun : ∀ (req0 : Payload) (h0 : UnaryHandler),
      grpc.chainUnaryInterceptors s.chain req0 h0 =
        recovery.UnaryServerInterceptor [.WithRecoveryHandler (New.recoveryHandler log)]
          req0 h0 := by
    intro req0 h0
    rw [hchain]
    rfl
  refine ⟨?_, ?_, hstate, ?_, ?_⟩
  · simp only [grpc.Server.processUnaryRPC, hstate, hh, hrun,
      recovery.UnaryServerInterceptor, hp]
    rfl
  · simp only [grpc.Server.processUnaryRPC, hstate, hh, hrun,
      recovery.UnaryServerInterceptor, hp]
  · intro svc2 method2 req2
    cases hl : s.lookup svc2 method2 with
    | none =>
        simp only [grpc.Server.processUnaryRPC, hstate, hl]
        exact ⟨trivial, _, _, rfl⟩
    | some h2 =>
        obtain ⟨r, l, hrl⟩ := recovery_returns (New.recoveryHandler log) req2 h2
        simp only [grpc.Server.processUnaryRPC, hstate, hl, hrun, hrl]
        exact ⟨trivial, _, _, rfl⟩
  · intro svc2 method2 req2 h2 r l hl hr
    simp only [grpc.Server.processUnaryRPC, hstate, hl, hrun,
      recovery.UnaryServerInterceptor, hr]

/-- C3 at the sample server: `Follow` panics, its caller gets the internal-error status, and
the server is the same afterwards. -/
theorem panic_contained_and_server_keeps_serving_witness :
    (sampleServing.processUnaryRPC .Follow "Follow" "1 2").result =
      .replied ⟨none, some (status.Error .Internal "internal error")⟩
        ([] ++ [sampleLog.Error "recovering from a panic"
          [slog.Any "panic" (.str "assignment to entry in nil map")]]) ∧
    (sampleServing.processUnaryRPC .Follow "Follow" "1 2").srv = some sampleServing :=
  ⟨(panic_contained_and_server_keeps_serving sampleLog 50051 5000000000 sampleAuth
      sampleUserInfo sampleFollow sampleServing .Follow "Follow" "1 2"
      (fun _ => (.panicked (.str "assignment to entry in nil map"), []))
      (.str "assignment to entry in nil map") [] rfl rfl rfl).1,
   (panic_contained_and_server_keeps_serving sampleLog 50051 5000000000 sampleAuth
      sampleUserInfo sampleFollow sampleServing .Follow "Follow" "1 2"
      (fun _ => (.panicked (.str "assignment to entry in nil map"), []))
      (.str "assignment to entry in nil map") [] rfl rfl rfl).2.1⟩

/-- C7: for every server built by `New`, whatever the arguments, the panic-recovery
interceptor is the first (outermost) element of the unary chain, and the chain is fixed at
construction: `Run` and `Stop` leave it and the registrations as they are. The three services
are registered with the implementations given, and every registered handler runs inside the
recovery boundary: the chain around it is the recovery interceptor applied to the request and
to the rest of the chain (every other interceptor, of which there is none) around the handler,
and it returns, it never panics. -/
theorem New_recovery_interceptor_outermost (log : Logger) (port : Int) (timeout : Duration)
    (auth : Auth) (usrInfo : UserInfo) (followProvider : FollowProvider) :
    (New log port timeout auth usrInfo followProvider).gRPCSrv.chain.head? =
      some (recovery.UnaryServerInterceptor
        [.WithRecoveryHandler (New.recoveryHandler log)]) ∧
    (New log port timeout auth usrInfo followProvider).gRPCSrv.chain.tail = [] ∧
    (∀ env : Env,
      ((New log port timeout auth usrInfo followProvider).Run env).app.gRPCSrv.chain =
        (New log port timeout auth usrInfo followProvider).gRPCSrv.chain ∧
      ((New log port timeout auth usrInfo followProvider).Run env).app.gRPCSrv.services =
        (New log port timeout auth usrInfo followProvider).gRPCSrv.services) ∧
    ((New log port timeout auth usrInfo followProvider).Stop).app.gRPCSrv.chain =
        (New log port timeout auth usrInfo followProvider).gRPCSrv.chain ∧
    ((New log port timeout auth usrInfo followProvider).Stop).app.gRPCSrv.services =
        (New log port timeout auth usrInfo followProvider).gRPCSrv.services ∧
    (∀ method : String,
      (New log port timeout auth usrInfo followProvider).gRPCSrv.lookup .Auth method =
        auth method ∧
      (New log port timeout auth usrInfo followProvider).gRPCSrv.lookup .UserInfo method =
        usrInfo method ∧
      (New log port timeout auth usrInfo followProvider).gRPCSrv.lookup .Follow method =
        followProvider method) ∧
    (∀ (svc : Service) (method : String) (h : UnaryHandler) (req : Payload),
      (New log port timeout auth usrInfo followProvider).gRPCSrv.lookup svc method = some h →
      grpc.chainUnaryInterceptors
          (New log port timeout auth usrInfo followProvider).gRPCSrv.chain req h =
        recovery.UnaryServerInterceptor [.WithRecoveryHandler (New.recoveryHandler log)] req
          (fun r => grpc.chainUnaryInterceptors
            (New log port timeout auth usrInfo followProvider).gRPCSrv.chain.tail r h) ∧
      ∃ r l, grpc.chainUnaryInterceptors
          (New log port timeout auth usrInfo followProvider).gRPCSrv.chain req h =
        (.returned r, l)) := by
  refine ⟨rfl, rfl, fun env => Run_keeps_chain _ env, rfl, rfl, fun method => ⟨rfl, rfl, rfl⟩, ?_⟩
  intro svc method h req _
  refine ⟨rfl, ?_⟩
  exact recovery_returns (New.recoveryHandler log) req h

/-- C7 at the sample App: the panicking `Follow` handler is registered, and the chain around
it returns. -/
theorem New_recovery_interceptor_outermost_witness :
    ∃ r l, grpc.chainUnaryInterceptors sampleApp.gRPCSrv.chain "1 2"
      (fun _ => (.panicked (.str "assignment to entry in nil map"), [])) = (.returned r, l) :=
  ((New_recovery_interceptor_outermost sampleLog 50051 5000000000 sampleAuth sampleUserInfo
      sampleFollow).2.2.2.2.2.2 .Follow "Follow"
      (fun _ => (.panicked (.str "assignment to entry in nil map"), [])) "1 2" rfl).2

/-- C10: the network timeout has no effect on the assembled server: for any two timeouts and
otherwise equal arguments `grpcapp.New` builds the same App (the same logger, port, interceptor
chain and the same three service registrations, on a server in the same state), and so does
`app.New`, which only forwards the timeout to it. -/
theorem New_ignores_timeout {Storage : Type} (c : app.Constructors Storage) (log : Logger)
    (storagePath secret : String) (tokenTTL refreshTTL : Duration) (port : Int)
    (auth : Auth) (usrInfo : UserInfo) (followProvider : FollowProvider) (t1 t2 : Duration) :
    New log port t1 auth usrInfo followProvider = New log port t2 auth usrInfo followProvider ∧
    (New log port t1 auth usrInfo followProvider).port = port ∧
    (New log port t1 auth usrInfo followProvider).gRPCSrv.chain =
      (New log port t2 auth usrInfo followProvider).gRPCSrv.chain ∧
    (New log port t1 auth usrInfo followProvider).gRPCSrv.services =
      [(.Auth, auth), (.UserInfo, usrInfo), (.Follow, followProvider)] ∧
    (New log port t2 auth usrInfo followProvider).gRPCSrv.services =
      [(.Auth, auth), (.UserInfo, usrInfo), (.Follow, followProvider)] ∧
    app.New c log storagePath secret tokenTTL refreshTTL port t1 =
      app.New c log storagePath secret tokenTTL refreshTTL port t2 ∧
    (app.New c log storagePath secret tokenTTL refreshTTL port t1).GRPCApp =
      New log port t2 (c.authNew log (c.sqliteNew storagePath) (c.sqliteNew storagePath)
          (c.sqliteNew storagePath) secret tokenTTL refreshTTL)
        (c.userinfoNew log (c.sqliteNew storagePath))
        (c.followNew log (c.sqliteNew storagePath) (c.sqliteNew storagePath)
          (c.sqliteNew storagePath)) :=
  ⟨rfl, rfl, rfl, rfl, rfl, rfl, rfl⟩

end grpcapp

end SSO
